import Mathlib

/-!
Shallow embedding of the image-cropping service in `src/app.py`.

External collaborators (network download, the YOLO model, the OpenCV contour
detector, cloud upload) are supplied as oracles; everything else mirrors the
source control flow.  Filesystem bookkeeping (`clear_previous`, `job_dir`,
the local backup save) is external plumbing and is omitted.
-/

/-- A bounding box (`BoundingBox` pydantic model, src/app.py 62-67). -/
structure BoundingBox where
  x : Int
  y : Int
  width : Int
  height : Int
  label : Option String
deriving Repr, DecidableEq

/-- A plain x/y/width/height rectangle record (used for the `bbox` dict that
`process_single_image` stores in each saved-file entry, and for the clamp
computation). -/
structure RectI where
  x : Int
  y : Int
  width : Int
  height : Int
deriving Repr, DecidableEq

/-- The coordinate fields of a box, label dropped. -/
def BoundingBox.rect (b : BoundingBox) : RectI :=
  ⟨b.x, b.y, b.width, b.height⟩

/-- A decoded raster image: dimensions plus pixel lookup (PIL `Image`). -/
structure Image where
  width : Int
  height : Int
  pix : Int → Int → Nat

/-- `image.crop((x, y, x + w, y + h))`: a fresh image of size `w × h` whose
pixel `(i, j)` is the source pixel `(x + i, y + j)`. -/
def Image.cropAt (img : Image) (x y w h : Int) : Image :=
  { width := w, height := h, pix := fun i j => img.pix (x + i) (y + j) }

/-- A raised `HTTPException(status_code, detail)`. -/
structure HTTPError where
  status : Nat
  detail : String
deriving Repr, DecidableEq

/-- The clamp computation of `crop_bounding_box` (src/app.py 106-109):
`x = max(0, x)`, `y = max(0, y)`, `width = min(width, image_width - x)`,
`height = min(height, image_height - y)`. -/
def clampRect (r : RectI) (image_width image_height : Int) : RectI :=
  ⟨max 0 r.x, max 0 r.y,
   min r.width (image_width - max 0 r.x),
   min r.height (image_height - max 0 r.y)⟩

/-- The detail string of the invalid-bounding-box `HTTPException`
(src/app.py 112). -/
def invalidBoxMsg (bbox : BoundingBox) : String :=
  "Invalid bounding box: x=" ++ toString bbox.x ++ " y=" ++ toString bbox.y
    ++ " width=" ++ toString bbox.width ++ " height=" ++ toString bbox.height

/-- `crop_bounding_box` (src/app.py 103-114). -/
def crop_bounding_box (image : Image) (bbox : BoundingBox) :
    Except HTTPError Image :=
  if min bbox.width (image.width - max 0 bbox.x) ≤ 0 ∨
     min bbox.height (image.height - max 0 bbox.y) ≤ 0 then
    .error ⟨400, invalidBoxMsg bbox⟩
  else
    .ok (image.cropAt (max 0 bbox.x) (max 0 bbox.y)
      (min bbox.width (image.width - max 0 bbox.x))
      (min bbox.height (image.height - max 0 bbox.y)))

/-- Box area, the sort key of `remove_overlapping_boxes` (src/app.py 305). -/
def boxArea (b : BoundingBox) : Int := b.width * b.height

/-- Intersection area of the two boxes, as computed at src/app.py 313-319
(only meaningful when the overlap test `x2 > x1 and y2 > y1` holds). -/
def interArea (a b : BoundingBox) : Int :=
  (min (a.x + a.width) (b.x + b.width) - max a.x b.x) *
  (min (a.y + a.height) (b.y + b.height) - max a.y b.y)

/-- The IoU value used by `remove_overlapping_boxes` (src/app.py 312-323):
0 when the rectangles do not overlap or the union is not positive. -/
def iouPair (a b : BoundingBox) : ℚ :=
  if max a.x b.x < min (a.x + a.width) (b.x + b.width) ∧
     max a.y b.y < min (a.y + a.height) (b.y + b.height) then
    if 0 < boxArea a + boxArea b - interArea a b then
      ((interArea a b : Int) : ℚ) / ((boxArea a + boxArea b - interArea a b : Int) : ℚ)
    else 0
  else 0

/-- One inner-loop overlap test of `remove_overlapping_boxes`
(src/app.py 311-327): the IoU comparison is made only when the rectangles
overlap. -/
def isOverlapping (thr : ℚ) (a b : BoundingBox) : Bool :=
  if max a.x b.x < min (a.x + a.width) (b.x + b.width) ∧
     max a.y b.y < min (a.y + a.height) (b.y + b.height) then
    decide (thr <
      if 0 < boxArea a + boxArea b - interArea a b then
        ((interArea a b : Int) : ℚ) / ((boxArea a + boxArea b - interArea a b : Int) : ℚ)
      else 0)
  else false

/-- The greedy acceptance loop of `remove_overlapping_boxes`
(src/app.py 308-330): a box is appended to `filtered` unless it overlaps an
already-accepted box beyond the threshold. -/
def greedyFilter (thr : ℚ) : List BoundingBox → List BoundingBox → List BoundingBox
  | filtered, [] => filtered
  | filtered, box :: rest =>
    if filtered.any fun e => isOverlapping thr box e then
      greedyFilter thr filtered rest
    else
      greedyFilter thr (filtered ++ [box]) rest

/-- `remove_overlapping_boxes` (src/app.py 299-332): stable sort by area
descending (Python `list.sort` with `reverse=True` is stable), then the
greedy filter. -/
def remove_overlapping_boxes (boxes : List BoundingBox) (thr : ℚ) :
    List BoundingBox :=
  if boxes.isEmpty then boxes
  else greedyFilter thr []
    (boxes.mergeSort fun a b => decide (boxArea b ≤ boxArea a))

/-- Why the YOLO stage raised: the library is not importable
(`ImportError`, src/app.py 174) or model inference raised
(src/app.py 179). -/
inductive YoloFailure where
  | notInstalled
  | inferenceFailed (msg : String)
deriving Repr, DecidableEq

/-- A raw detection from the model: integer box plus class label
(src/app.py 143-152). -/
structure RawDet where
  x : Int
  y : Int
  width : Int
  height : Int
  label : String
deriving Repr, DecidableEq

/-- Detail of the HTTP 400 raised when the model library is missing
(src/app.py 175-178). -/
def yoloNotInstalledMsg : String :=
  "YOLO not installed. Install with: pip install ultralytics"

/-- The window-shape filter applied to each model detection when
`windows_only` (src/app.py 154-164): aspect ratio in `[0.3, 3.0]`, area
strictly between 0.5% and 90% of the image area. -/
def windowFilterKeep (imgW imgH : Int) (d : RawDet) : Bool :=
  decide ((3 : ℚ)/10 ≤ (if 0 < d.height then (d.width : ℚ) / (d.height : ℚ) else 0)) &&
  decide ((if 0 < d.height then (d.width : ℚ) / (d.height : ℚ) else 0) ≤ 3) &&
  decide (((imgW * imgH : Int) : ℚ) * (1/200) < ((d.width * d.height : Int) : ℚ)) &&
  decide (((d.width * d.height : Int) : ℚ) < ((imgW * imgH : Int) : ℚ) * (9/10))

/-- The YOLO stage of `detect_objects` (src/app.py 130-180), with the
external model's availability and raw output supplied as an oracle. -/
def yoloStage (yolo : Except YoloFailure (List RawDet)) (windows_only : Bool)
    (img : Image) : Except HTTPError (List BoundingBox) :=
  match yolo with
  | .error .notInstalled => .error ⟨400, yoloNotInstalledMsg⟩
  | .error (.inferenceFailed m) => .error ⟨500, "Object detection failed: " ++ m⟩
  | .ok dets =>
    .ok (dets.filterMap fun d =>
      if windows_only then
        if windowFilterKeep img.width img.height d then
          some ⟨d.x, d.y, d.width, d.height, some "window"⟩
        else none
      else some ⟨d.x, d.y, d.width, d.height, some d.label⟩)

/-- `detect_objects` (src/app.py 117-180).  The primitive contour detector
`detect_windows_advanced` never raises — unavailability of OpenCV or any
internal failure yields `[]` (src/app.py 237-241) — so its result is
supplied as a plain list. -/
def detect_objects (primitive : List BoundingBox)
    (yolo : Except YoloFailure (List RawDet)) (windows_only : Bool)
    (img : Image) : Except HTTPError (List BoundingBox) :=
  if windows_only then
    if primitive.isEmpty then yoloStage yolo windows_only img
    else .ok primitive
  else yoloStage yolo windows_only img

/-- The `CropRequest` pydantic model (src/app.py 70-77). -/
structure CropRequest where
  image_url : Option String
  image_urls : Option (List String)
  bounding_boxes : Option (List BoundingBox)
  use_detection : Bool
  detect_windows_only : Bool
  confidence_threshold : ℚ
deriving Repr

/-- Python truthiness of an optional list: `None` and `[]` are falsy. -/
def optListFalsy (o : Option (List α)) : Bool :=
  match o with
  | none => true
  | some l => l.isEmpty

/-- `CropRequest.get_image_urls` (src/app.py 79-86). -/
def CropRequest.get_image_urls (req : CropRequest) : Except String (List String) :=
  if optListFalsy req.image_urls then
    match req.image_url with
    | some u => .ok [u]
    | none => .error "Either image_url or image_urls must be provided"
  else .ok (req.image_urls.getD [])

/-- What `process_single_image` observes from a call to `detect_objects`:
a normal result, a raised `HTTPException`, or any other raised exception
(src/app.py 357-373). -/
inductive DetectResult where
  | ok (boxes : List BoundingBox)
  | httpError (e : HTTPError)
  | exn (msg : String)
deriving Repr, DecidableEq

/-- The faithful detection collaborator: `detect_objects` only ever returns
a list or raises an `HTTPException`. -/
def detectOutcomeOf (primitive : Image → List BoundingBox)
    (yolo : Except YoloFailure (List RawDet)) (windows_only : Bool) :
    Image → DetectResult :=
  fun img =>
    match detect_objects (primitive img) yolo windows_only img with
    | .ok bs => .ok bs
    | .error e => .httpError e

/-- `download_image` (src/app.py 89-100): every failure of the underlying
fetch/decode is wrapped into an HTTP 400 `HTTPException`. -/
def download_image (download : String → Except String Image) (url : String) :
    Except HTTPError Image :=
  match download url with
  | .ok img => .ok img
  | .error e => .error ⟨400, "Failed to download image: " ++ e⟩

/-- One saved-file entry (src/app.py 419-436).  The `path` field is local
filesystem plumbing and is omitted. -/
structure Artifact where
  url : String
  filename : String
  label : String
  source_image : String
  image_index : Nat
  dim_width : Int
  dim_height : Int
  bbox : RectI
deriving Repr, DecidableEq

/-- Python `bbox.label or default`: `None` and the empty string fall back. -/
def pyOr (o : Option String) (d : String) : String :=
  match o with
  | some s => if s.isEmpty then d else s
  | none => d

/-- Label sanitization (src/app.py 392): keep alphanumerics, `-`, `_`;
replace every other character with `_`. -/
def sanitizeLabel (s : String) : String :=
  String.mk (s.data.map fun c =>
    if c.isAlphanum || c == '-' || c == '_' then c else '_')

/-- The `"window" in label.lower()` substring test (src/app.py 387). -/
def windowLike (label : String) : Bool :=
  (List.range (label.data.length + 1)).any fun i =>
    "window".data.isPrefixOf ((label.data.map Char.toLower).drop i)

/-- Python `f"{n:03d}"`: zero-pad to (at least) three digits. -/
def pad3 (n : Nat) : String :=
  if n < 1000 then
    String.mk [Char.ofNat (48 + n / 100), Char.ofNat (48 + n / 10 % 10),
               Char.ofNat (48 + n % 10)]
  else toString n

/-- Filename construction (src/app.py 393-397): the image index is embedded
only when `image_index > 0`. -/
def mkFilename (image_index idx : Nat) (safe_label : String) : String :=
  if image_index > 0 then
    "img" ++ toString (image_index + 1) ++ "_" ++ pad3 (idx + 1) ++ "_"
      ++ safe_label ++ ".jpg"
  else
    pad3 (idx + 1) ++ "_" ++ safe_label ++ ".jpg"

/-- Rendering of a caught `HTTPException` in an f-string. -/
def renderHTTPError (e : HTTPError) : String :=
  toString e.status ++ ": " ++ e.detail

/-- Error string at src/app.py 438. -/
def cropFailMsg (idx image_index : Nat) (e : HTTPError) : String :=
  "Failed to crop box " ++ toString (idx + 1) ++ " from image "
    ++ toString (image_index + 1) ++ ": " ++ renderHTTPError e

/-- Error string at src/app.py 370. -/
def detectFailMsg (image_index : Nat) (m : String) : String :=
  "Detection failed for image " ++ toString (image_index + 1) ++ ": " ++ m

/-- Error string at src/app.py 365. -/
def noObjectsMsg (image_index : Nat) (windows_only : Bool) : String :=
  "No objects detected in image " ++ toString (image_index + 1)
    ++ (if windows_only then " (no windows found)" else "")

/-- Error string at src/app.py 376. -/
def noBoxesMsg (image_index : Nat) : String :=
  "No bounding boxes provided for image " ++ toString (image_index + 1)
    ++ " and detection not enabled"

/-- The per-box crop loop of `process_single_image` (src/app.py 380-440).
`idx` is the 0-based box position, `wc` the running window counter; a crop
failure (the `HTTPException` from `crop_bounding_box`, caught by the
`except Exception` at src/app.py 437) appends an error and continues. -/
def cropBoxes (image : Image) (source_url : String) (windows_only : Bool)
    (image_index : Nat) (store : String → String) :
    List BoundingBox → Nat → Nat → List Artifact × List String
  | [], _, _ => ([], [])
  | bbox :: rest, idx, wc =>
    match crop_bounding_box image bbox with
    | .error e =>
      let r := cropBoxes image source_url windows_only image_index store rest
        (idx + 1) wc
      (r.1, cropFailMsg idx image_index e :: r.2)
    | .ok cropped =>
      let label0 := pyOr bbox.label ("crop_" ++ toString (idx + 1))
      let isWin := windowLike label0 || windows_only
      let wc' := if isWin then wc + 1 else wc
      let label := if isWin then "window_" ++ toString wc' else label0
      let filename := mkFilename image_index idx (sanitizeLabel label)
      let art : Artifact :=
        { url := store filename
          filename := filename
          label := label
          source_image := source_url
          image_index := image_index + 1
          dim_width := cropped.width
          dim_height := cropped.height
          bbox := bbox.rect }
      let r := cropBoxes image source_url windows_only image_index store rest
        (idx + 1) wc'
      (art :: r.1, r.2)

/-- The tail of `process_single_image` from the resolved box list on
(src/app.py 375-440): the empty/None check, then the crop loop. -/
def afterBoxes (image : Image) (url : String) (windows_only : Bool)
    (image_index : Nat) (store : String → String)
    (bbs : Option (List BoundingBox)) (errs : List String) :
    Except HTTPError (List Artifact × List String) :=
  if optListFalsy bbs then .ok ([], errs ++ [noBoxesMsg image_index])
  else
    let r := cropBoxes image url windows_only image_index store (bbs.getD []) 0 0
    .ok (r.1, errs ++ r.2)

/-- `process_single_image` (src/app.py 335-440), with download, detection
and upload as oracles.  An `HTTPException` raised by a collaborator is
re-raised (src/app.py 348-349 and 367-368); since `download_image` wraps
every failure into an `HTTPException`, the generic download handler at
src/app.py 350-352 is unreachable. -/
def process_single_image (url : String) (req : CropRequest) (image_index : Nat)
    (download : String → Except String Image) (detect : Image → DetectResult)
    (store : String → String) :
    Except HTTPError (List Artifact × List String) :=
  match download_image download url with
  | .error e => .error e
  | .ok image =>
    if req.use_detection then
      match detect image with
      | .httpError e => .error e
      | .exn m =>
        if optListFalsy req.bounding_boxes then
          .ok ([], [detectFailMsg image_index m])
        else
          afterBoxes image url req.detect_windows_only image_index store
            req.bounding_boxes [detectFailMsg image_index m]
      | .ok boxes =>
        if boxes.isEmpty then
          .ok ([], [noObjectsMsg image_index req.detect_windows_only])
        else
          afterBoxes image url req.detect_windows_only image_index store
            (some boxes) []
    else
      afterBoxes image url req.detect_windows_only image_index store
        req.bounding_boxes []

/-- The per-image loop of the `/crop-image` endpoint (src/app.py 474-483):
an `HTTPException` from `process_single_image` is re-raised, aborting the
whole job; otherwise artifacts and errors are concatenated in order. -/
def processAll (req : CropRequest) (download : String → Except String Image)
    (detect : Image → DetectResult) (store : String → String) :
    List String → Nat → Except HTTPError (List Artifact × List String)
  | [], _ => .ok ([], [])
  | url :: rest, idx =>
    match process_single_image url req idx download detect store with
    | .error e => .error e
    | .ok r =>
      match processAll req download detect store rest (idx + 1) with
      | .error e => .error e
      | .ok r' => .ok (r.1 ++ r'.1, r.2 ++ r'.2)

/-- The response body of `/crop-image` (src/app.py 485-493); `job_id` and
`output_dir` are external plumbing and are omitted. -/
structure JobReport where
  status : String
  images_processed : Nat
  saved_count : Nat
  saved_files : List Artifact
  errors : List String
deriving Repr, DecidableEq

/-- The `/crop-image` endpoint (src/app.py 443-493): URL-list validation,
the per-image loop, then the final report.  The `clear_previous` directory
cleanup and job-directory creation are filesystem plumbing and are
omitted. -/
def crop_image (req : CropRequest) (download : String → Except String Image)
    (detect : Image → DetectResult) (store : String → String) :
    Except HTTPError JobReport :=
  match req.get_image_urls with
  | .error m => .error ⟨400, m⟩
  | .ok urls =>
    match processAll req download detect store urls 0 with
    | .error e => .error e
    | .ok r =>
      .ok { status := "success"
            images_processed := urls.length
            saved_count := r.1.length
            saved_files := r.1
            errors := r.2 }

/-! Concrete fixtures used by the closed theorems below. -/

/-- A 100×100 test image with a simple pixel pattern. -/
def img100 : Image :=
  { width := 100, height := 100, pix := fun i j => (i + 2 * j).toNat }

/-- The shared explicit box of the two-image scenario. -/
def box50 : BoundingBox := ⟨10, 10, 50, 50, none⟩

/-- The out-of-bounds box of the clamp scenario. -/
def boxNeg : BoundingBox := ⟨-5, -5, 20, 20, none⟩

/-- An upload collaborator that returns a fixed reference. -/
def storeRef : String → String := fun _ => "ref"

/-- A download collaborator for which every URL decodes to `img100`. -/
def dlAlways : String → Except String Image := fun _ => .ok img100

/-- A download collaborator where only the first URL succeeds. -/
def dlFirstOnly : String → Except String Image := fun url =>
  if url = "http://h/1.jpg" then .ok img100 else .error "boom"

/-- A detection collaborator that is never consulted in the scenarios that
use it (detection disabled). -/
def detectUnused : Image → DetectResult := fun _ => .ok []

/-- Two images, one shared explicit box, no detection. -/
def reqTwoImages : CropRequest :=
  { image_url := none
    image_urls := some ["http://h/1.jpg", "http://h/2.jpg"]
    bounding_boxes := some [box50]
    use_detection := false
    detect_windows_only := false
    confidence_threshold := 1/2 }

/-- One good URL then one failing URL, explicit box, no detection. -/
def reqBadDownload : CropRequest :=
  { image_url := none
    image_urls := some ["http://h/1.jpg", "http://h/bad.jpg"]
    bounding_boxes := some [box50]
    use_detection := false
    detect_windows_only := false
    confidence_threshold := 1/2 }

/-- Detection requested, no explicit boxes. -/
def reqDetectNoBoxes : CropRequest :=
  { image_url := none
    image_urls := some ["http://h/1.jpg"]
    bounding_boxes := none
    use_detection := true
    detect_windows_only := false
    confidence_threshold := 1/2 }

/-- The faithful detection collaborator when the model library is not
importable and the contour detector finds nothing. -/
def detectYoloMissing : Image → DetectResult :=
  detectOutcomeOf (fun _ => []) (.error .notInstalled) false

/-- Detection requested, explicit boxes also supplied. -/
def reqExnBoxes : CropRequest :=
  { image_url := none
    image_urls := some ["http://h/1.jpg"]
    bounding_boxes := some [box50]
    use_detection := true
    detect_windows_only := false
    confidence_threshold := 1/2 }

/-- A detection collaborator that raises a non-HTTP exception. -/
def detectRaises : Image → DetectResult := fun _ => .exn "torch exploded"

/-- The artifact produced for `boxNeg` on `img100` (first image, first
box): the recorded `bbox` is the caller-supplied box, pre-clamp. -/
def artNeg : Artifact :=
  { url := "ref"
    filename := "001_crop_1.jpg"
    label := "crop_1"
    source_image := "u"
    image_index := 1
    dim_width := 20
    dim_height := 20
    bbox := ⟨-5, -5, 20, 20⟩ }

/-! Theorems. -/

/-- C4 (counterexample): clamping `{x:-5, y:-5, width:20, height:20}` against
a 100×100 image does **not** yield `{x:0, y:0, width:15, height:15}`. -/
theorem clamp_scenario_cex :
    clampRect boxNeg.rect 100 100 ≠ ⟨0, 0, 15, 15⟩ := by decide

/-- C4 (amended): clamping `{x:-5, y:-5, width:20, height:20}` against a
100×100 image yields `{x:0, y:0, width:20, height:20}`: the origin is clamped
to zero, but the width/height are limited only by the extent remaining from
the clamped origin (`min 20 (100 - 0) = 20`), not shrunk by the shift. -/
theorem clamp_scenario :
    clampRect boxNeg.rect 100 100 = ⟨0, 0, 20, 20⟩ := by decide

/-- C5 (counterexample): in a two-image job with one shared box, the first
image's artifact is named `001_crop_1.jpg`, not the claimed
`img1_001_crop_1.jpg` — the filename embeds the image index only when the
0-based image index is positive (src/app.py 394). -/
theorem filename_image_prefix_cex :
    (crop_image reqTwoImages dlAlways detectUnused storeRef).map
        (fun r => r.saved_files.map fun a => a.filename)
      = .ok ["001_crop_1.jpg", "img2_001_crop_1.jpg"] ∧
    ("001_crop_1.jpg" : String) ≠ "img1_001_crop_1.jpg" :=
  ⟨rfl, by decide⟩

/-- C5 (amended): only images after the first embed the 1-based image index
in artifact filenames; the first image's filenames carry no image prefix, so
a two-image job with one shared box yields `001_crop_1.jpg` and
`img2_001_crop_1.jpg`. -/
theorem filename_image_prefix :
    (crop_image reqTwoImages dlAlways detectUnused storeRef).map
        (fun r => r.saved_files.map fun a => a.filename)
      = .ok ["001_crop_1.jpg", "img2_001_crop_1.jpg"] := rfl

/-- C1: a failing download does **not** produce a completed `JobReport` with
per-image error accounting: `download_image` wraps the failure into an
`HTTPException`, which `process_single_image` (src/app.py 348-349) and the
endpoint loop (src/app.py 480-481) re-raise, aborting the whole job — here a
two-URL job whose second download fails returns HTTP 400 and no report, so
the per-image handler at src/app.py 350-352 is dead code. -/
theorem download_failure_aborts_job :
    crop_image reqBadDownload dlFirstOnly detectUnused storeRef
      = .error ⟨400, "Failed to download image: boom"⟩ := rfl

/-- C2 (counterexample): with detection requested, no explicit boxes, and the
model library not importable, the job does not complete with a zero-artifact
report — the whole request aborts with HTTP 400 "YOLO not installed". -/
theorem detection_capability_absent_cex :
    crop_image reqDetectNoBoxes dlAlways detectYoloMissing storeRef
      = .error ⟨400, yoloNotInstalledMsg⟩ := rfl

/-- C3 (counterexample): for the box `{x:-5, y:-5, width:20, height:20}` on a
100×100 image the saved artifact's `bbox` is the pre-clamp caller box, which
differs from the post-clamp box `{0, 0, 20, 20}` actually used for the
crop. -/
theorem artifact_box_not_postclamp_cex :
    (cropBoxes img100 "u" false 0 storeRef [boxNeg] 0 0).1.map
        (fun a => a.bbox) = [boxNeg.rect] ∧
      boxNeg.rect ≠ clampRect boxNeg.rect img100.width img100.height :=
  ⟨rfl, by decide⟩

/-- C8: `crop_bounding_box` clamps by the formula `x = max(0,x)`,
`y = max(0,y)`, `width = min(width, image_width - x)`,
`height = min(height, image_height - y)`; it rejects (returns the
invalid-geometry error) exactly when the clamped width or height is ≤ 0, and
on success it crops exactly the clamped rectangle. -/
theorem crop_bounding_box_spec (image : Image) (bbox : BoundingBox) :
    (clampRect bbox.rect image.width image.height
        = ⟨max 0 bbox.x, max 0 bbox.y,
           min bbox.width (image.width - max 0 bbox.x),
           min bbox.height (image.height - max 0 bbox.y)⟩) ∧
    (((crop_bounding_box image bbox).isOk = true) ↔
      (0 < (clampRect bbox.rect image.width image.height).width ∧
       0 < (clampRect bbox.rect image.width image.height).height)) ∧
    (∀ res, crop_bounding_box image bbox = .ok res →
      res.width = (clampRect bbox.rect image.width image.height).width ∧
      res.height = (clampRect bbox.rect image.width image.height).height ∧
      ∀ i j, res.pix i j
        = image.pix ((clampRect bbox.rect image.width image.height).x + i)
            ((clampRect bbox.rect image.width image.height).y + j)) := by
  refine ⟨rfl, ?_, ?_⟩
  · unfold crop_bounding_box
    split
    · next h =>
      simp only [Except.isOk, Except.toBool, Bool.false_eq_true, false_iff,
        clampRect, BoundingBox.rect, not_and, not_lt]
      intro h1
      omega
    · next h =>
      simp only [Except.isOk, Except.toBool, clampRect, BoundingBox.rect,
        true_iff]
      omega
  · unfold crop_bounding_box
    split
    · intro res hres
      simp at hres
    · intro res hres
      cases hres
      exact ⟨rfl, rfl, fun i j => rfl⟩

/-- C8 (witness): the crop of the in-bounds box `box50` on `img100`
succeeds. -/
theorem crop_bounding_box_spec_witness :
    (crop_bounding_box img100 box50).isOk = true :=
  ((crop_bounding_box_spec img100 box50).2.1).mpr (by decide)

/-- C9: the clamp computation is idempotent — clamping an already-clamped
box (here under the success condition of positive clamped extent) yields the
identical box. -/
theorem clamp_idempotent (r : RectI) (W H : Int)
    (hw : 0 < (clampRect r W H).width) (hh : 0 < (clampRect r W H).height) :
    clampRect (clampRect r W H) W H = clampRect r W H := by
  simp only [clampRect, RectI.mk.injEq]
  refine ⟨?_, ?_, ?_, ?_⟩ <;> omega

/-- C9 (witness): re-clamping the clamp of `boxNeg` on a 100×100 image gives
the same rectangle. -/
theorem clamp_idempotent_witness :
    clampRect (clampRect boxNeg.rect 100 100) 100 100
      = clampRect boxNeg.rect 100 100 :=
  clamp_idempotent boxNeg.rect 100 100 (by decide) (by decide)

/-- C6: in windows-only automatic detection, the primitive contour detector
runs first; a non-empty primitive result is returned as-is — for **every**
possible model-stage oracle, so the model is never consulted — and an empty
primitive result falls back to the model stage with window filtering
enabled. -/
theorem detect_objects_windows_policy (primitive : List BoundingBox)
    (yolo : Except YoloFailure (List RawDet)) (img : Image) :
    (primitive ≠ [] → detect_objects primitive yolo true img = .ok primitive) ∧
    (primitive = [] → detect_objects primitive yolo true img
        = yoloStage yolo true img) := by
  constructor
  · intro h
    unfold detect_objects
    simp [h]
  · intro h
    subst h
    unfold detect_objects
    simp

/-- C6 (witness): with one primitive box the model stage (here an
unavailable model) is ignored; with no primitive box the model stage is
used. -/
theorem detect_objects_windows_policy_witness :
    detect_objects [box50] (.error .notInstalled) true img100 = .ok [box50] ∧
    detect_objects [] (.ok []) true img100 = yoloStage (.ok []) true img100 :=
  ⟨(detect_objects_windows_policy [box50] (.error .notInstalled) img100).1
      (by simp),
   (detect_objects_windows_policy [] (.ok []) img100).2 rfl⟩

/-- C10: when detection is enabled and the detection call raises a non-HTTP
exception while the request carries a non-empty explicit box list, the image
is not skipped: the detection-failure error is recorded first and the crop
loop still runs over the caller-supplied boxes. -/
theorem detection_exn_uses_caller_boxes (url : String) (req : CropRequest)
    (image_index : Nat) (download : String → Except String Image)
    (detect : Image → DetectResult) (store : String → String) (img : Image)
    (m : String) (bs : List BoundingBox)
    (hdl : download url = .ok img)
    (hdet : detect img = .exn m)
    (hud : req.use_detection = true)
    (hbs : req.bounding_boxes = some bs)
    (hne : bs ≠ []) :
    process_single_image url req image_index download detect store
      = .ok ((cropBoxes img url req.detect_windows_only image_index store
                bs 0 0).1,
             detectFailMsg image_index m
               :: (cropBoxes img url req.detect_windows_only image_index store
                     bs 0 0).2) := by
  unfold process_single_image download_image
  simp only [hdl, hud, hdet, hbs, if_true]
  simp [afterBoxes, optListFalsy, hne]

/-- C10 (witness): a concrete request with boxes `[box50]` and a raising
detector records the error and crops the caller's box. -/
theorem detection_exn_uses_caller_boxes_witness :
    process_single_image "http://h/1.jpg" reqExnBoxes 0 dlAlways detectRaises
        storeRef
      = .ok ((cropBoxes img100 "http://h/1.jpg" false 0 storeRef
                [box50] 0 0).1,
             detectFailMsg 0 "torch exploded"
               :: (cropBoxes img100 "http://h/1.jpg" false 0 storeRef
                     [box50] 0 0).2) :=
  detection_exn_uses_caller_boxes "http://h/1.jpg" reqExnBoxes 0 dlAlways
    detectRaises storeRef img100 "torch exploded" [box50] rfl rfl rfl rfl
    (by simp)

/-- C3 (amended): the artifact appended for a successfully cropped box
carries the caller/detector-supplied **pre-clamp** box in its `bbox` field;
the clamped geometry shows up only in the artifact's dimensions, which equal
the post-clamp width and height. -/
theorem artifact_carries_preclamp_box (image : Image) (source_url : String)
    (windows_only : Bool) (image_index : Nat) (store : String → String)
    (bbox : BoundingBox) (rest : List BoundingBox) (idx wc : Nat)
    (cropped : Image) (h : crop_bounding_box image bbox = .ok cropped)
    (a : Artifact)
    (ha : (cropBoxes image source_url windows_only image_index store
        (bbox :: rest) idx wc).1.head? = some a) :
    a.bbox = bbox.rect ∧
    a.dim_width = (clampRect bbox.rect image.width image.height).width ∧
    a.dim_height = (clampRect bbox.rect image.width image.height).height := by
  unfold cropBoxes at ha
  rw [h] at ha
  simp at ha
  subst ha
  unfold crop_bounding_box at h
  split at h
  · simp at h
  · cases h
    exact ⟨rfl, rfl, rfl⟩

/-- C3 (witness): for `boxNeg` on `img100` the saved artifact records the
pre-clamp box `{-5,-5,20,20}` with post-clamp dimensions 20×20. -/
theorem artifact_carries_preclamp_box_witness :
    artNeg.bbox = boxNeg.rect ∧
    artNeg.dim_width = (clampRect boxNeg.rect img100.width img100.height).width ∧
    artNeg.dim_height = (clampRect boxNeg.rect img100.width img100.height).height :=
  artifact_carries_preclamp_box img100 "u" false 0 storeRef boxNeg [] 0 0
    (img100.cropAt 0 0 20 20) rfl artNeg rfl

/-- C2 (amended): when detection is requested and the model library is not
importable, any image that reaches the model stage (windows-only mode with
an empty primitive result, or plain detection mode) aborts the **whole**
request with HTTP 400 "YOLO not installed" — the job never completes with a
per-image error report in this situation, regardless of supplied boxes. -/
theorem detection_capability_absent_aborts (req : CropRequest)
    (download : String → Except String Image) (store : String → String)
    (primitive : Image → List BoundingBox) (u : String) (rest : List String)
    (img : Image)
    (hurls : req.get_image_urls = .ok (u :: rest))
    (hdet : req.use_detection = true)
    (hdl : download u = .ok img)
    (hprim : req.detect_windows_only = true → primitive img = []) :
    crop_image req download
      (detectOutcomeOf primitive (.error .notInstalled) req.detect_windows_only)
      store
      = .error ⟨400, yoloNotInstalledMsg⟩ := by
  have hdetect :
      detectOutcomeOf primitive (.error .notInstalled) req.detect_windows_only
        img = .httpError ⟨400, yoloNotInstalledMsg⟩ := by
    unfold detectOutcomeOf detect_objects yoloStage
    cases hwo : req.detect_windows_only with
    | true => simp [hprim hwo]
    | false => simp
  have hfirst :
      process_single_image u req 0 download
        (detectOutcomeOf primitive (.error .notInstalled)
          req.detect_windows_only) store
        = .error ⟨400, yoloNotInstalledMsg⟩ := by
    unfold process_single_image download_image
    simp only [hdl, hdet, hdetect, if_true]
  unfold crop_image
  simp only [hurls]
  simp only [processAll]
  simp only [hfirst]

/-- C2 (amended, witness): the concrete one-image request with detection on
and the model library missing aborts with HTTP 400. -/
theorem detection_capability_absent_aborts_witness :
    crop_image reqDetectNoBoxes dlAlways
      (detectOutcomeOf (fun _ => []) (.error .notInstalled)
        reqDetectNoBoxes.detect_windows_only)
      storeRef
      = .error ⟨400, yoloNotInstalledMsg⟩ :=
  detection_capability_absent_aborts reqDetectNoBoxes dlAlways storeRef
    (fun _ => []) "http://h/1.jpg" [] img100 rfl rfl rfl (fun _ => rfl)

/-- The intersection term of the IoU is symmetric. -/
theorem interArea_comm (a b : BoundingBox) : interArea a b = interArea b a := by
  unfold interArea
  rw [min_comm (a.x + a.width) (b.x + b.width), max_comm a.x b.x,
      min_comm (a.y + a.height) (b.y + b.height), max_comm a.y b.y]

/-- The IoU value of `remove_overlapping_boxes` is symmetric. -/
theorem iouPair_comm (a b : BoundingBox) : iouPair a b = iouPair b a := by
  unfold iouPair
  rw [interArea_comm, min_comm (a.x + a.width) (b.x + b.width),
      max_comm a.x b.x, min_comm (a.y + a.height) (b.y + b.height),
      max_comm a.y b.y, add_comm (boxArea a) (boxArea b)]

/-- For a nonnegative threshold, the loop's overlap flag is exactly the
strict comparison of the IoU value against the threshold. -/
theorem isOverlapping_iff (thr : ℚ) (hthr : 0 ≤ thr) (a b : BoundingBox) :
    isOverlapping thr a b = true ↔ thr < iouPair a b := by
  unfold isOverlapping iouPair
  split
  · simp
  · simp only [Bool.false_eq_true, false_iff, not_lt]
    exact hthr

/-- Every box kept by the greedy loop comes from the accumulator or the
input. -/
theorem greedyFilter_mem (thr : ℚ) :
    ∀ (l acc : List BoundingBox), ∀ x ∈ greedyFilter thr acc l,
      x ∈ acc ∨ x ∈ l := by
  intro l
  induction l with
  | nil =>
    intro acc x hx
    exact Or.inl hx
  | cons b rest ih =>
    intro acc x hx
    unfold greedyFilter at hx
    split at hx
    · rcases ih acc x hx with h | h
      · exact Or.inl h
      · exact Or.inr (List.mem_cons_of_mem _ h)
    · rcases ih (acc ++ [b]) x hx with h | h
      · rcases List.mem_append.mp h with h1 | h1
        · exact Or.inl h1
        · simp only [List.mem_singleton] at h1
          subst h1
          exact Or.inr (List.mem_cons_self _ _)
      · exact Or.inr (List.mem_cons_of_mem _ h)

/-- The greedy loop's output is a sublist of accumulator ++ input. -/
theorem greedyFilter_sublist (thr : ℚ) :
    ∀ (l acc : List BoundingBox),
      (greedyFilter thr acc l).Sublist (acc ++ l) := by
  intro l
  induction l with
  | nil =>
    intro acc
    simpa [greedyFilter] using List.Sublist.refl acc
  | cons b rest ih =>
    intro acc
    unfold greedyFilter
    split
    · exact (ih acc).trans
        (List.Sublist.append_left (List.sublist_cons_self b rest) acc)
    · have h := ih (acc ++ [b])
      simpa [List.append_assoc] using h

/-- The greedy loop preserves pairwise-IoU-bounded accumulators: every box
it appends has been checked against all already-accepted boxes. -/
theorem greedyFilter_pairwise (thr : ℚ) (hthr : 0 ≤ thr) :
    ∀ (l acc : List BoundingBox),
      acc.Pairwise (fun a b => iouPair a b ≤ thr) →
      (greedyFilter thr acc l).Pairwise (fun a b => iouPair a b ≤ thr) := by
  intro l
  induction l with
  | nil =>
    intro acc h
    exact h
  | cons b rest ih =>
    intro acc hacc
    unfold greedyFilter
    split
    · exact ih acc hacc
    · next hany =>
      apply ih
      rw [List.pairwise_append]
      refine ⟨hacc, by simp, ?_⟩
      intro a ha b' hb'
      simp only [List.mem_singleton] at hb'
      simp only [List.any_eq_true, not_exists, not_and] at hany
      rw [hb', iouPair_comm]
      have h1 : ¬ thr < iouPair b a := fun hlt =>
        hany a ha ((isOverlapping_iff thr hthr b a).mpr hlt)
      exact not_lt.mp h1

/-- On a pairwise-IoU-bounded list the greedy loop keeps everything. -/
theorem greedyFilter_noop (thr : ℚ) (hthr : 0 ≤ thr) :
    ∀ (l acc : List BoundingBox),
      (acc ++ l).Pairwise (fun a b => iouPair a b ≤ thr) →
      greedyFilter thr acc l = acc ++ l := by
  intro l
  induction l with
  | nil =>
    intro acc _
    simp [greedyFilter]
  | cons b rest ih =>
    intro acc hp
    have hpa := List.pairwise_append.mp hp
    have hany : (acc.any fun e => isOverlapping thr b e) = false := by
      rw [List.any_eq_false]
      intro e he
      have h1 : iouPair e b ≤ thr :=
        hpa.2.2 e he b (List.mem_cons_self _ _)
      have h2 : ¬ thr < iouPair b e := by
        rw [iouPair_comm b e]
        exact not_lt.mpr h1
      intro hc
      exact h2 ((isOverlapping_iff thr hthr b e).mp hc)
    have hassoc : (acc ++ [b]) ++ rest = acc ++ b :: rest := by simp
    unfold greedyFilter
    rw [hany]
    simp only [Bool.false_eq_true, if_false]
    rw [ih (acc ++ [b]) (by rw [hassoc]; exact hp), hassoc]

/-- `remove_overlapping_boxes` equals the greedy loop on the area-sorted
input, also in the empty case. -/
theorem remove_overlapping_boxes_eq (boxes : List BoundingBox) (thr : ℚ) :
    remove_overlapping_boxes boxes thr
      = greedyFilter thr []
          (boxes.mergeSort fun a b => decide (boxArea b ≤ boxArea a)) := by
  unfold remove_overlapping_boxes
  split
  · next h =>
    rw [List.isEmpty_iff.mp h]
    simp [List.mergeSort_nil, greedyFilter]
  · rfl

/-- C7: for every input list and nonnegative threshold (the configured
default is 0.5), the suppressor's output is a subset of its input, every
pair of boxes in the output has IoU ≤ the threshold, and the suppressor is
idempotent: applying it to its own output returns the same list. -/
theorem remove_overlapping_boxes_spec (boxes : List BoundingBox) (thr : ℚ)
    (hthr : 0 ≤ thr) :
    (∀ b ∈ remove_overlapping_boxes boxes thr, b ∈ boxes) ∧
    (remove_overlapping_boxes boxes thr).Pairwise
      (fun a b => iouPair a b ≤ thr) ∧
    remove_overlapping_boxes (remove_overlapping_boxes boxes thr) thr
      = remove_overlapping_boxes boxes thr := by
  have le_trans' : ∀ a b c : BoundingBox,
      decide (boxArea b ≤ boxArea a) = true →
      decide (boxArea c ≤ boxArea b) = true →
      decide (boxArea c ≤ boxArea a) = true := by
    intro a b c h1 h2
    simp only [decide_eq_true_eq] at h1 h2 ⊢
    exact le_trans h2 h1
  have le_total' : ∀ a b : BoundingBox,
      (decide (boxArea b ≤ boxArea a) || decide (boxArea a ≤ boxArea b))
        = true := by
    intro a b
    simp only [Bool.or_eq_true, decide_eq_true_eq]
    exact le_total (boxArea b) (boxArea a)
  have hout := remove_overlapping_boxes_eq boxes thr
  have hsub : (greedyFilter thr []
      (boxes.mergeSort fun a b => decide (boxArea b ≤ boxArea a))).Sublist
      (boxes.mergeSort fun a b => decide (boxArea b ≤ boxArea a)) := by
    simpa using greedyFilter_sublist thr
      (boxes.mergeSort fun a b => decide (boxArea b ≤ boxArea a)) []
  have hP : (greedyFilter thr []
      (boxes.mergeSort fun a b => decide (boxArea b ≤ boxArea a))).Pairwise
      (fun a b => iouPair a b ≤ thr) :=
    greedyFilter_pairwise thr hthr _ [] List.Pairwise.nil
  refine ⟨?_, ?_, ?_⟩
  · intro b hb
    rw [hout] at hb
    rcases greedyFilter_mem thr _ [] b hb with h | h
    · cases h
    · exact (List.mergeSort_perm boxes
        (fun a b => decide (boxArea b ≤ boxArea a))).mem_iff.mp h
  · rw [hout]
    exact hP
  · rw [hout]
    have hsorted : (boxes.mergeSort
        fun a b => decide (boxArea b ≤ boxArea a)).Pairwise
        (fun a b => decide (boxArea b ≤ boxArea a) = true) :=
      List.sorted_mergeSort le_trans' le_total' boxes
    have houtSorted := List.Pairwise.sublist hsub hsorted
    unfold remove_overlapping_boxes
    split
    · rfl
    · rw [List.mergeSort_of_sorted houtSorted]
      simpa using greedyFilter_noop thr hthr
        (greedyFilter thr []
          (boxes.mergeSort fun a b => decide (boxArea b ≤ boxArea a))) []
        (by simpa using hP)

/-- C7 (witness): the suppressor's guarantees at a concrete two-box input
with the default threshold 0.5. -/
theorem remove_overlapping_boxes_spec_witness :
    (∀ b ∈ remove_overlapping_boxes [box50, boxNeg] (1/2),
      b ∈ [box50, boxNeg]) ∧
    (remove_overlapping_boxes [box50, boxNeg] (1/2)).Pairwise
      (fun a b => iouPair a b ≤ 1/2) ∧
    remove_overlapping_boxes
        (remove_overlapping_boxes [box50, boxNeg] (1/2)) (1/2)
      = remove_overlapping_boxes [box50, boxNeg] (1/2) :=
  remove_overlapping_boxes_spec [box50, boxNeg] (1/2) (by norm_num)
